import Mathlib

/-!
Verification development for the jupyterhub profile utilities.

The repository has two source files with logic worth checking:
`jupyterhub_profiles.py` (a renderer from a profile record to a spawner
tuple) and `jupyterhub_profiles_tools.py` (a second copy of the renderer
plus CRUD operations over a JSON file storing an array of profile records).

Modelling choices, shared by all definitions below:
* JSON values are the inductive `Json`; numbers are modelled as integers,
  which covers every value any claim touches.
* A Python dict parsed from JSON is an association list
  `List (String × Json)` in insertion order; `dget` is dict lookup
  (first occurrence), `dmerge` is the Python double-splat merge.
* The file system is a partial map `FS := String → Option Json` from a
  path to the parsed JSON value of the file stored there.  `json.load`
  and `json.dump` round-trip faithfully at the value level, so reading a
  file yields exactly the value last written to it; a missing file maps
  to `none`.
* Fallible Python code (KeyError on a missing dict key, TypeError when a
  value has the wrong shape for the operation applied to it) is modelled
  with `Option`, `none` standing for a raised exception.  The renderers
  require the fields they use to carry the types the file-format contract
  gives them (strings, and a string array for `args`); records violating
  that contract map to `none`.
* The trailing `print` confirmation messages are not modelled; the only
  one that can itself raise is the one in `add_profile`, and it runs
  after the save it reports on, so no claim depends on it.
-/

inductive Json where
  | null : Json
  | bool : Bool → Json
  | num : Int → Json
  | str : String → Json
  | arr : List Json → Json
  | obj : List (String × Json) → Json

/-- A parsed JSON object / Python dict: keys with values, in insertion
order. -/
abbrev Dict := List (String × Json)

/-- Python dict lookup `d[k]` / `d.get(k)`: the value at the first
occurrence of the key, if any. -/
def dget (d : Dict) (k : String) : Option Json :=
  match d with
  | [] => none
  | (k2, v) :: rest => if k2 = k then some v else dget rest k

/-- Python shallow merge of two dicts by double splat: keys of `a` in
order with the value from `b` where `b` has the key, then the keys of `b`
absent from `a`, in order. -/
def dmerge (a b : Dict) : Dict :=
  a.map (fun kv => (kv.1, (dget b kv.1).getD kv.2)) ++
    b.filter (fun kv => (dget a kv.1).isNone)

/-- Python equality of a JSON value against a Python string (the
comparison `profile["shortname"] == shortname` in the source): true
exactly when the value is that string; any non-string value compares
false against a string. -/
def Json.eqStr : Json → String → Bool
  | Json.str s, t => s == t
  | _, _ => false

/-- Extracts a JSON string, failing on any other value. -/
def Json.asString : Json → Option String
  | Json.str s => some s
  | _ => none

/-- Extracts a JSON array of strings, failing on any other shape. -/
def Json.asStringList : Json → Option (List String)
  | Json.arr xs => xs.mapM Json.asString
  | _ => none

/-- The 4-tuple a renderer produces: display name, shortname, spawner
class, and the spawner config mapping, a single-key dict from a key to a
string list. -/
abbrev ProfileTuple := String × String × String × List (String × List String)

/-- The env path computation shared by both renderers:
`profile_config.get("env_path", f"(workdir)/.venv")`.  A present value is
used as-is, whatever it is (including the empty string); the default only
applies when the key is absent. -/
def getEnvPath (d : Dict) (workdir : String) : Option String :=
  match dget d "env_path" with
  | none => some (workdir ++ "/.venv")
  | some v => v.asString

/-- The args computation shared by both renderers:
`profile_config.get("args", [])`, which must be a list of strings for the
subsequent join. -/
def getArgs (d : Dict) : Option (List String) :=
  match dget d "args" with
  | none => some []
  | some v => v.asStringList

namespace JupyterhubProfiles

/-- The spawner class computation of the renderer in
`jupyterhub_profiles.py`:
`profile_config.get("cls", "jupyterhub.spawner.LocalProcessSpawner")`. -/
def getCls (d : Dict) : Option String :=
  match dget d "cls" with
  | none => some "jupyterhub.spawner.LocalProcessSpawner"
  | some v => v.asString

/-- `dict_to_profile` from `jupyterhub_profiles.py`.  Reads `dir`,
defaults `env_path` and `args`, joins the args with single spaces, builds
the activation shell command, and returns the 4-tuple; the spawner class
is the `cls` field when present and the fixed default otherwise. -/
def dict_to_profile (profile_config : Dict) : Option ProfileTuple := do
  let workdir ← (dget profile_config "dir").bind Json.asString
  let env_path ← getEnvPath profile_config workdir
  let args_list ← getArgs profile_config
  let args := String.intercalate " " args_list
  let cmd := "source " ++ env_path ++ "/bin/activate && cd " ++ workdir ++
    " && exec jupyterhub-singleuser " ++ args
  let name ← (dget profile_config "name").bind Json.asString
  let shortname ← (dget profile_config "shortname").bind Json.asString
  let cls ← getCls profile_config
  return (name, shortname, cls, [("cmd", ["/bin/bash", "-c", cmd])])

end JupyterhubProfiles

namespace JupyterhubProfilesTools

/-- `dict_to_profile` from `jupyterhub_profiles_tools.py`.  Identical to
the copy in `jupyterhub_profiles.py` except that the spawner class slot
is the literal `jupyterhub.spawner.LocalProcessSpawner`: this copy never
reads a `cls` field. -/
def dict_to_profile (profile_config : Dict) : Option ProfileTuple := do
  let workdir ← (dget profile_config "dir").bind Json.asString
  let env_path ← getEnvPath profile_config workdir
  let args_list ← getArgs profile_config
  let args := String.intercalate " " args_list
  let cmd := "source " ++ env_path ++ "/bin/activate && cd " ++ workdir ++
    " && exec jupyterhub-singleuser " ++ args
  let name ← (dget profile_config "name").bind Json.asString
  let shortname ← (dget profile_config "shortname").bind Json.asString
  return (name, shortname, "jupyterhub.spawner.LocalProcessSpawner",
    [("cmd", ["/bin/bash", "-c", cmd])])

end JupyterhubProfilesTools

/-- The file system: a partial map from a path to the parsed JSON value
of the file stored at that path. -/
def FS : Type := String → Option Json

/-- Extracts the record dicts from the elements of a loaded JSON array,
failing on any element that is not an object. -/
def decodeRecords : List Json → Option (List Dict)
  | [] => some []
  | Json.obj d :: rest => (decodeRecords rest).map (fun ds => d :: ds)
  | _ => none

/-- A well-formed profile store is a JSON array of objects; this extracts
the list of records and fails on any other shape, modelling the errors
the CRUD operations raise when the loaded value does not have that
shape. -/
def decodeStore : Json → Option (List Dict)
  | Json.arr xs => decodeRecords xs
  | _ => none

/-- Serializes a list of records back to the JSON array `json.dump`
writes. -/
def encodeStore (profiles : List Dict) : Json :=
  Json.arr (profiles.map Json.obj)

namespace JupyterhubProfilesTools

/-- `load_profiles` from `jupyterhub_profiles_tools.py`: opens the file
and parses it; `none` is a missing file (FileNotFoundError). -/
def load_profiles (fs : FS) (file_path : String) : Option Json :=
  fs file_path

/-- `save_profiles` from `jupyterhub_profiles_tools.py`: overwrites the
file at the path with the serialized value. -/
def save_profiles (profiles : Json) (fs : FS) (file_path : String) : FS :=
  fun p => if p = file_path then some profiles else fs p

/-- `add_profile`: load the store (at the default path), append the new
record, save.  No check of any kind against the existing records. -/
def add_profile (profile_config : Dict) (fs : FS) : Option FS := do
  let j ← load_profiles fs "profiles.json"
  let profiles ← decodeStore j
  return save_profiles (encodeStore (profiles ++ [profile_config])) fs
    "profiles.json"

/-- The scan inside `change_profile`: walk the records in order; on the
first one whose `shortname` equals the target, replace it by the shallow
merge of the patch over it and stop.  `none` models the KeyError raised
when a record visited before any match lacks the `shortname` key;
`some none` is the loop ending with no match. -/
def change_loop (shortname : String) (updated_config : Dict) :
    List Dict → Option (Option (List Dict))
  | [] => some none
  | p :: rest =>
    match dget p "shortname" with
    | none => none
    | some v =>
      if Json.eqStr v shortname then
        some (some (dmerge p updated_config :: rest))
      else
        (change_loop shortname updated_config rest).map
          (fun r => r.map (fun kept => p :: kept))

/-- `change_profile`: load, scan for the first record matching the
shortname; if found, save the store with that record patched and report
success (`true`); otherwise perform no write and report not-found
(`false`). -/
def change_profile (shortname : String) (updated_config : Dict) (fs : FS) :
    Option (FS × Bool) := do
  let j ← load_profiles fs "profiles.json"
  let profiles ← decodeStore j
  match change_loop shortname updated_config profiles with
  | none => none
  | some none => some (fs, false)
  | some (some newProfiles) =>
      some (save_profiles (encodeStore newProfiles) fs "profiles.json", true)

/-- The comprehension inside `remove_profile`: keep the records whose
`shortname` differs from the target; `none` models the KeyError raised
when some record lacks the `shortname` key. -/
def remove_filter (shortname : String) : List Dict → Option (List Dict)
  | [] => some []
  | p :: rest =>
    match dget p "shortname" with
    | none => none
    | some v =>
      (remove_filter shortname rest).map
        (fun kept => if Json.eqStr v shortname then kept else p :: kept)

/-- `remove_profile`: load, drop every record whose `shortname` equals
the target, save unconditionally (also when nothing was dropped). -/
def remove_profile (shortname : String) (fs : FS) : Option FS := do
  let j ← load_profiles fs "profiles.json"
  let profiles ← decodeStore j
  let kept ← remove_filter shortname profiles
  return save_profiles (encodeStore kept) fs "profiles.json"

/-- The comprehension inside `export_profiles_to_config`: renders each
record in order, failing as soon as one record cannot be rendered. -/
def renderAll : List Dict → Option (List ProfileTuple)
  | [] => some []
  | p :: rest => (dict_to_profile p).bind
      (fun t => (renderAll rest).map (fun ts => t :: ts))

/-- `export_profiles_to_config`: load the store at `json_path`, render
every record in order with this file's `dict_to_profile`, and return the
list.  The body never touches `config_path` and performs no write, so the
unchanged file system is returned alongside the result. -/
def export_profiles_to_config (fs : FS) (json_path : String)
    (config_path : String) : Option (List ProfileTuple × FS) := do
  let j ← load_profiles fs json_path
  let profiles ← decodeStore j
  let formatted ← renderAll profiles
  return (formatted, fs)

end JupyterhubProfilesTools

/-- The end-to-end example profile of the spec (and of the `__main__`
block of `jupyterhub_profiles.py`). -/
def ex2 : Dict :=
  [("name", Json.str "Project 1 Environment"),
   ("shortname", Json.str "project1"),
   ("dir", Json.str "/path/to/project1"),
   ("env_path", Json.str "/path/to/project1/venv"),
   ("args", Json.arr [Json.str "--ServerApp.default_url=/lab"])]

/-- A profile record carrying an explicit `cls` field different from the
default spawner class. -/
def exC : Dict :=
  [("name", Json.str "n"), ("shortname", Json.str "s"),
   ("dir", Json.str "/d"), ("cls", Json.str "custom.Spawner")]

/-- A minimal profile record with only the three required fields. -/
def exD : Dict :=
  [("name", Json.str "n"), ("shortname", Json.str "s"), ("dir", Json.str "/d")]

/-- A profile record whose `env_path` field is present but empty. -/
def exE : Dict :=
  [("name", Json.str "n"), ("shortname", Json.str "s"),
   ("dir", Json.str "/d"), ("env_path", Json.str "")]

/-- A one-record store used to instantiate the store theorems. -/
def storeA : List Dict :=
  [[("name", Json.str "A"), ("shortname", Json.str "a"), ("dir", Json.str "/a")]]

/-- A file system holding `storeA` at the default store path and nothing
else. -/
def fsA : FS :=
  fun p => if p = "profiles.json" then some (encodeStore storeA) else none

/-- A second record sharing the shortname of the one in `storeA`. -/
def exDup : Dict :=
  [("name", Json.str "A2"), ("shortname", Json.str "a"), ("dir", Json.str "/a2")]

/-! ### Helper lemmas -/

lemma tools_render_shape (d : Dict) (r : ProfileTuple)
    (h : JupyterhubProfilesTools.dict_to_profile d = some r) :
    ∃ workdir env_path args_list name shortname,
      (dget d "dir").bind Json.asString = some workdir ∧
      getEnvPath d workdir = some env_path ∧
      getArgs d = some args_list ∧
      (dget d "name").bind Json.asString = some name ∧
      (dget d "shortname").bind Json.asString = some shortname ∧
      r = (name, shortname, "jupyterhub.spawner.LocalProcessSpawner",
        [("cmd", ["/bin/bash", "-c",
          "source " ++ env_path ++ "/bin/activate && cd " ++ workdir ++
          " && exec jupyterhub-singleuser " ++ String.intercalate " " args_list])]) := by
  unfold JupyterhubProfilesTools.dict_to_profile at h
  simp only [bind, Option.bind_eq_some, pure, Option.some.injEq] at h
  obtain ⟨workdir, hw, env_path, he, args_list, ha, name, hn, shortname, hs, hr⟩ := h
  exact ⟨workdir, env_path, args_list, name, shortname, Option.bind_eq_some.mpr hw, he, ha,
    Option.bind_eq_some.mpr hn, Option.bind_eq_some.mpr hs, hr.symm⟩

lemma profiles_render_shape (d : Dict) (r : ProfileTuple)
    (h : JupyterhubProfiles.dict_to_profile d = some r) :
    ∃ workdir env_path args_list name shortname cls,
      (dget d "dir").bind Json.asString = some workdir ∧
      getEnvPath d workdir = some env_path ∧
      getArgs d = some args_list ∧
      (dget d "name").bind Json.asString = some name ∧
      (dget d "shortname").bind Json.asString = some shortname ∧
      JupyterhubProfiles.getCls d = some cls ∧
      r = (name, shortname, cls,
        [("cmd", ["/bin/bash", "-c",
          "source " ++ env_path ++ "/bin/activate && cd " ++ workdir ++
          " && exec jupyterhub-singleuser " ++ String.intercalate " " args_list])]) := by
  unfold JupyterhubProfiles.dict_to_profile at h
  simp only [bind, Option.bind_eq_some, pure, Option.some.injEq] at h
  obtain ⟨workdir, hw, env_path, he, args_list, ha, name, hn, shortname, hs, cls, hc, hr⟩ := h
  exact ⟨workdir, env_path, args_list, name, shortname, cls, Option.bind_eq_some.mpr hw, he, ha,
    Option.bind_eq_some.mpr hn, Option.bind_eq_some.mpr hs, hc, hr.symm⟩

lemma dget_append (xs ys : Dict) (k : String) :
    dget (xs ++ ys) k = match dget xs k with
      | some v => some v
      | none => dget ys k := by
  induction xs with
  | nil => simp [dget]
  | cons kv rest ih =>
    obtain ⟨k1, v1⟩ := kv
    by_cases hk : k1 = k
    · simp [dget, hk]
    · simp [dget, hk, ih]

lemma dget_map_getD (a b : Dict) (k : String) :
    dget (a.map (fun kv => (kv.1, (dget b kv.1).getD kv.2))) k =
      (dget a k).map (fun v => (dget b k).getD v) := by
  induction a with
  | nil => simp [dget]
  | cons kv rest ih =>
    obtain ⟨k1, v1⟩ := kv
    by_cases hk : k1 = k
    · subst hk
      simp [dget]
    · simp [dget, hk, ih]

lemma dget_filter_key (q : String → Bool) (b : Dict) (k : String) :
    dget (b.filter (fun kv => q kv.1)) k =
      if q k = true then dget b k else none := by
  induction b with
  | nil => simp [dget]
  | cons kv rest ih =>
    obtain ⟨k1, v1⟩ := kv
    simp only [List.filter_cons]
    cases hq1 : q k1 with
    | false =>
      simp only [Bool.false_eq_true, if_false]
      by_cases hk : k1 = k
      · subst hk
        rw [ih, hq1]
        simp
      · rw [ih]
        by_cases hqk : q k = true
        · simp [hqk, dget, hk]
        · simp [hqk]
    | true =>
      simp only [if_true]
      by_cases hk : k1 = k
      · subst hk
        simp [dget, hq1]
      · simp only [dget, hk, if_false]
        rw [ih]

lemma dget_dmerge (a b : Dict) (k : String) :
    dget (dmerge a b) k = match dget b k with
      | some v => some v
      | none => dget a k := by
  unfold dmerge
  rw [dget_append, dget_map_getD,
    dget_filter_key (fun key => (dget a key).isNone) b k]
  cases ha : dget a k with
  | none =>
    simp only [Option.map_none', Option.isNone_none, if_true]
    cases dget b k <;> rfl
  | some v =>
    simp only [Option.map_some', Option.isNone_some, Bool.false_eq_true, if_false]
    cases dget b k <;> rfl

lemma decodeRecords_encode (ps : List Dict) :
    decodeRecords (ps.map Json.obj) = some ps := by
  induction ps with
  | nil => rfl
  | cons p rest ih => simp [decodeRecords, ih]

lemma decode_encode (ps : List Dict) : decodeStore (encodeStore ps) = some ps := by
  unfold decodeStore encodeStore
  exact decodeRecords_encode ps

lemma map_obj_of_decodeRecords (xs : List Json) (ps : List Dict)
    (h : decodeRecords xs = some ps) : ps.map Json.obj = xs := by
  induction xs generalizing ps with
  | nil =>
    unfold decodeRecords at h
    injection h with h
    subst h
    rfl
  | cons x rest ih =>
    cases x with
    | obj d =>
      unfold decodeRecords at h
      cases hr : decodeRecords rest with
      | none => rw [hr] at h; simp at h
      | some ds =>
        rw [hr] at h
        simp only [Option.map_some', Option.some.injEq] at h
        subst h
        simp [ih ds hr]
    | null => simp [decodeRecords] at h
    | bool b => simp [decodeRecords] at h
    | num n => simp [decodeRecords] at h
    | str st => simp [decodeRecords] at h
    | arr ys => simp [decodeRecords] at h

lemma encode_of_decode (j : Json) (ps : List Dict)
    (h : decodeStore j = some ps) : encodeStore ps = j := by
  cases j with
  | arr xs =>
    unfold decodeStore at h
    unfold encodeStore
    rw [map_obj_of_decodeRecords xs ps h]
  | null => simp [decodeStore] at h
  | bool b => simp [decodeStore] at h
  | num n => simp [decodeStore] at h
  | str st => simp [decodeStore] at h
  | obj d => simp [decodeStore] at h

namespace JupyterhubProfilesTools

lemma change_loop_notfound (s : String) (patch : Dict) (ps : List Dict)
    (h : ∀ p ∈ ps, ∃ v, dget p "shortname" = some v ∧ Json.eqStr v s = false) :
    change_loop s patch ps = some none := by
  induction ps with
  | nil => rfl
  | cons p rest ih =>
    obtain ⟨v, hv, hne⟩ := h p (List.mem_cons_self p rest)
    unfold change_loop
    simp only [hv, hne, Bool.false_eq_true, if_false]
    rw [ih (fun q hq => h q (List.mem_cons_of_mem p hq))]
    rfl

lemma change_loop_found (s : String) (patch : Dict) (pre post : List Dict) (p : Dict)
    (hpre : ∀ q ∈ pre, ∃ v, dget q "shortname" = some v ∧ Json.eqStr v s = false)
    (hp : dget p "shortname" = some (Json.str s)) :
    change_loop s patch (pre ++ p :: post) =
      some (some (pre ++ dmerge p patch :: post)) := by
  induction pre with
  | nil =>
    unfold change_loop
    simp only [List.nil_append, hp]
    simp [Json.eqStr]
  | cons q rest ih =>
    obtain ⟨v, hv, hne⟩ := hpre q (List.mem_cons_self q rest)
    unfold change_loop
    simp only [List.cons_append, hv, hne, Bool.false_eq_true, if_false]
    rw [ih (fun q2 hq2 => hpre q2 (List.mem_cons_of_mem q hq2))]
    rfl

lemma remove_filter_eq (s : String) (ps : List Dict)
    (h : ∀ p ∈ ps, (dget p "shortname").isSome) :
    remove_filter s ps =
      some (ps.filter
        (fun p => ! Json.eqStr ((dget p "shortname").getD Json.null) s)) := by
  induction ps with
  | nil => rfl
  | cons p rest ih =>
    have hp := h p (List.mem_cons_self p rest)
    obtain ⟨v, hv⟩ := Option.isSome_iff_exists.mp hp
    unfold remove_filter
    simp only [hv]
    rw [ih (fun q hq => h q (List.mem_cons_of_mem p hq))]
    simp only [Option.map_some', List.filter_cons, hv, Option.getD_some]
    cases he : Json.eqStr v s <;> simp [he]

end JupyterhubProfilesTools

/-! ### Claim theorems -/

/-- C2: on the end-to-end example profile of the spec, both copies of the
renderer return exactly the expected 4-tuple: display name, shortname,
the default spawner class, and the single-key config mapping with the
activation shell command. -/
theorem render_end_to_end_example :
    JupyterhubProfilesTools.dict_to_profile ex2 =
      some ("Project 1 Environment", "project1",
        "jupyterhub.spawner.LocalProcessSpawner",
        [("cmd", ["/bin/bash", "-c",
          "source /path/to/project1/venv/bin/activate && cd /path/to/project1 && exec jupyterhub-singleuser --ServerApp.default_url=/lab"])]) ∧
    JupyterhubProfiles.dict_to_profile ex2 =
      some ("Project 1 Environment", "project1",
        "jupyterhub.spawner.LocalProcessSpawner",
        [("cmd", ["/bin/bash", "-c",
          "source /path/to/project1/venv/bin/activate && cd /path/to/project1 && exec jupyterhub-singleuser --ServerApp.default_url=/lab"])]) :=
  ⟨rfl, rfl⟩

/-- C1 counterexample: the claim says render returns the profile record's
`cls` field as spawner class whenever that field is present, for both
cited code places; but on a record whose `cls` is `custom.Spawner` the
renderer in `jupyterhub_profiles_tools.py` still returns the fixed
default string. -/
theorem render_cls_claim_counterexample :
    dget exC "cls" = some (Json.str "custom.Spawner") ∧
    JupyterhubProfilesTools.dict_to_profile exC =
      some ("n", "s", "jupyterhub.spawner.LocalProcessSpawner",
        [("cmd", ["/bin/bash", "-c",
          "source /d/.venv/bin/activate && cd /d && exec jupyterhub-singleuser "])]) ∧
    ("jupyterhub.spawner.LocalProcessSpawner" : String) ≠ "custom.Spawner" :=
  ⟨rfl, rfl, by decide⟩

/-- C1 amended: the renderer in `jupyterhub_profiles.py` returns the
record's `cls` field as spawner class when present and the fixed default
`jupyterhub.spawner.LocalProcessSpawner` when absent, while the copy in
`jupyterhub_profiles_tools.py` returns the fixed default regardless of
any `cls` field. -/
theorem render_cls_amended (d : Dict) (n s c : String)
    (cfg : List (String × List String)) :
    (JupyterhubProfilesTools.dict_to_profile d = some (n, s, c, cfg) →
      c = "jupyterhub.spawner.LocalProcessSpawner") ∧
    (JupyterhubProfiles.dict_to_profile d = some (n, s, c, cfg) →
      (dget d "cls" = none → c = "jupyterhub.spawner.LocalProcessSpawner") ∧
      ∀ c0, dget d "cls" = some (Json.str c0) → c = c0) := by
  constructor
  · intro h
    obtain ⟨w, e, al, nm, sn, _, _, _, _, _, hr⟩ := tools_render_shape d _ h
    exact congrArg (fun t => t.2.2.1) hr
  · intro h
    obtain ⟨w, e, al, nm, sn, cls, _, _, _, _, _, hc, hr⟩ := profiles_render_shape d _ h
    have hcc : c = cls := congrArg (fun t => t.2.2.1) hr
    constructor
    · intro hnone
      simp only [JupyterhubProfiles.getCls, hnone, Option.some.injEq] at hc
      exact hcc.trans hc.symm
    · intro c0 hsome
      simp only [JupyterhubProfiles.getCls, hsome, Json.asString, Option.some.injEq] at hc
      exact hcc.trans hc.symm

/-- C1 witness: the amended theorem instantiated at the record `exC` with
its explicit `cls` field, once through the tools renderer (fixed default)
and once through the other copy (field value). -/
theorem render_cls_amended_witness :
    ("jupyterhub.spawner.LocalProcessSpawner" : String) =
      "jupyterhub.spawner.LocalProcessSpawner" ∧
    ("custom.Spawner" : String) = "custom.Spawner" :=
  ⟨(render_cls_amended exC "n" "s" "jupyterhub.spawner.LocalProcessSpawner"
      [("cmd", ["/bin/bash", "-c",
        "source /d/.venv/bin/activate && cd /d && exec jupyterhub-singleuser "])]).1 rfl,
   ((render_cls_amended exC "n" "s" "custom.Spawner"
      [("cmd", ["/bin/bash", "-c",
        "source /d/.venv/bin/activate && cd /d && exec jupyterhub-singleuser "])]).2 rfl).2
     "custom.Spawner" rfl⟩

/-- C4 counterexample: the claim reads the spec formula
`env_path = profile.env_path or dir + "/.venv"` with Python `or`
semantics, for every present value including the empty string; but on a
record whose `env_path` is the empty string the code uses the empty
string as-is, rendering `source /bin/activate && ...` rather than the
command through `<dir>/.venv/bin/activate` the formula would give. -/
theorem env_path_empty_string_counterexample :
    dget exE "dir" = some (Json.str "/d") ∧
    dget exE "env_path" = some (Json.str "") ∧
    JupyterhubProfilesTools.dict_to_profile exE =
      some ("n", "s", "jupyterhub.spawner.LocalProcessSpawner",
        [("cmd", ["/bin/bash", "-c",
          "source /bin/activate && cd /d && exec jupyterhub-singleuser "])]) ∧
    ("source /bin/activate && cd /d && exec jupyterhub-singleuser " : String) ≠
      "source /d/.venv/bin/activate && cd /d && exec jupyterhub-singleuser " :=
  ⟨rfl, rfl, rfl, by decide⟩

/-- C4 amended: both renderers compute the env path as the record's
`env_path` field whenever it is present — any present string value,
including the empty string, is used as-is — and as `dir + "/.venv"` only
when the field is absent; in particular a record without `env_path`
renders a command going through `<dir>/.venv/bin/activate`. -/
theorem env_path_amended (d : Dict) (workdir : String) (args_list : List String)
    (hdir : dget d "dir" = some (Json.str workdir))
    (hargs : getArgs d = some args_list) :
    (∀ r : ProfileTuple, JupyterhubProfilesTools.dict_to_profile d = some r →
      (dget d "env_path" = none →
        r.2.2.2 = [("cmd", ["/bin/bash", "-c",
          "source " ++ workdir ++ "/.venv" ++ "/bin/activate && cd " ++ workdir ++
          " && exec jupyterhub-singleuser " ++ String.intercalate " " args_list])]) ∧
      (∀ e, dget d "env_path" = some (Json.str e) →
        r.2.2.2 = [("cmd", ["/bin/bash", "-c",
          "source " ++ e ++ "/bin/activate && cd " ++ workdir ++
          " && exec jupyterhub-singleuser " ++ String.intercalate " " args_list])])) ∧
    (∀ r : ProfileTuple, JupyterhubProfiles.dict_to_profile d = some r →
      (dget d "env_path" = none →
        r.2.2.2 = [("cmd", ["/bin/bash", "-c",
          "source " ++ workdir ++ "/.venv" ++ "/bin/activate && cd " ++ workdir ++
          " && exec jupyterhub-singleuser " ++ String.intercalate " " args_list])]) ∧
      (∀ e, dget d "env_path" = some (Json.str e) →
        r.2.2.2 = [("cmd", ["/bin/bash", "-c",
          "source " ++ e ++ "/bin/activate && cd " ++ workdir ++
          " && exec jupyterhub-singleuser " ++ String.intercalate " " args_list])])) := by
  constructor
  · intro r h
    obtain ⟨w, ep, al, nm, sn, hw, he, ha, hn, hs, hr⟩ := tools_render_shape d r h
    rw [hdir] at hw
    simp only [Option.some_bind, Json.asString, Option.some.injEq] at hw
    subst hw
    rw [hargs] at ha
    injection ha with ha
    subst ha
    have hcfg := congrArg (fun t : ProfileTuple => t.2.2.2) hr
    simp only at hcfg
    constructor
    · intro hnone
      unfold getEnvPath at he
      rw [hnone] at he
      injection he with he
      subst he
      rw [hcfg]
      simp [String.append_assoc]
    · intro e hsome
      unfold getEnvPath at he
      rw [hsome] at he
      simp only [Json.asString, Option.some.injEq] at he
      subst he
      rw [hcfg]
  · intro r h
    obtain ⟨w, ep, al, nm, sn, cls, hw, he, ha, hn, hs, hc, hr⟩ := profiles_render_shape d r h
    rw [hdir] at hw
    simp only [Option.some_bind, Json.asString, Option.some.injEq] at hw
    subst hw
    rw [hargs] at ha
    injection ha with ha
    subst ha
    have hcfg := congrArg (fun t : ProfileTuple => t.2.2.2) hr
    simp only at hcfg
    constructor
    · intro hnone
      unfold getEnvPath at he
      rw [hnone] at he
      injection he with he
      subst he
      rw [hcfg]
      simp [String.append_assoc]
    · intro e hsome
      unfold getEnvPath at he
      rw [hsome] at he
      simp only [Json.asString, Option.some.injEq] at he
      subst he
      rw [hcfg]

/-- C4 witness: the amended theorem instantiated at a record without
`env_path` (default `<dir>/.venv` taken) and at the record with the empty
`env_path` (empty string used as-is). -/
theorem env_path_amended_witness :
    (("n", "s", "jupyterhub.spawner.LocalProcessSpawner",
      [("cmd", ["/bin/bash", "-c",
        "source /d/.venv/bin/activate && cd /d && exec jupyterhub-singleuser "])]) :
      ProfileTuple).2.2.2 =
      [("cmd", ["/bin/bash", "-c",
        "source /d/.venv/bin/activate && cd /d && exec jupyterhub-singleuser "])] ∧
    (("n", "s", "jupyterhub.spawner.LocalProcessSpawner",
      [("cmd", ["/bin/bash", "-c",
        "source /bin/activate && cd /d && exec jupyterhub-singleuser "])]) :
      ProfileTuple).2.2.2 =
      [("cmd", ["/bin/bash", "-c",
        "source /bin/activate && cd /d && exec jupyterhub-singleuser "])] :=
  ⟨((env_path_amended exD "/d" [] rfl rfl).1 _ rfl).1 rfl,
   ((env_path_amended exE "/d" [] rfl rfl).1 _ rfl).2 "" rfl⟩

/-- C10 counterexample: the two copies of the renderer disagree on the
record `exC`, whose `cls` field is `custom.Spawner`: the copy in
`jupyterhub_profiles.py` puts that value in the spawner-class slot, the
copy in `jupyterhub_profiles_tools.py` puts the fixed default there. -/
theorem renderers_differ_on_cls :
    JupyterhubProfiles.dict_to_profile exC ≠
      JupyterhubProfilesTools.dict_to_profile exC := by
  decide

/-- C10 amended: the two copies of the renderer return equal results on
every profile record whose `cls` field is absent or equal to the default
spawner class string; they can disagree only through the `cls` field,
which only `jupyterhub_profiles.py` reads. -/
theorem renderers_agree_without_cls (d : Dict)
    (h : dget d "cls" = none ∨
      dget d "cls" = some (Json.str "jupyterhub.spawner.LocalProcessSpawner")) :
    JupyterhubProfiles.dict_to_profile d = JupyterhubProfilesTools.dict_to_profile d := by
  have hc : JupyterhubProfiles.getCls d =
      some "jupyterhub.spawner.LocalProcessSpawner" := by
    rcases h with h | h
    · simp [JupyterhubProfiles.getCls, h]
    · simp [JupyterhubProfiles.getCls, h, Json.asString]
  unfold JupyterhubProfiles.dict_to_profile JupyterhubProfilesTools.dict_to_profile
  simp only [bind]
  cases hw : (dget d "dir").bind Json.asString with
  | none => rfl
  | some w =>
    simp only [Option.some_bind]
    cases he : getEnvPath d w with
    | none => rfl
    | some ep =>
      simp only [Option.some_bind]
      cases ha : getArgs d with
      | none => rfl
      | some al =>
        simp only [Option.some_bind]
        cases hn : (dget d "name").bind Json.asString with
        | none => rfl
        | some nm =>
          simp only [Option.some_bind]
          cases hs : (dget d "shortname").bind Json.asString with
          | none => rfl
          | some sn =>
            simp only [Option.some_bind, hc]

/-- C10 witness: the amended theorem instantiated at the record `exE`,
which has no `cls` field. -/
theorem renderers_agree_without_cls_witness :
    JupyterhubProfiles.dict_to_profile exE = JupyterhubProfilesTools.dict_to_profile exE :=
  renderers_agree_without_cls exE (Or.inl rfl)

namespace JupyterhubProfilesTools

/-- C3: for every file system whose `json_path` holds a well-formed,
renderable store, export returns the ordered sequence of rendered tuples
together with the unchanged file system (no write happens, to
`config_path` or anywhere else), and the `config_path` argument has no
effect on the result. -/
theorem export_returns_rendered_and_ignores_config (fs : FS)
    (json_path config_path : String) (j : Json) (ps : List Dict)
    (r : List ProfileTuple)
    (hf : load_profiles fs json_path = some j)
    (hd : decodeStore j = some ps)
    (hr : renderAll ps = some r) :
    export_profiles_to_config fs json_path config_path = some (r, fs) ∧
    ∀ config_path2,
      export_profiles_to_config fs json_path config_path2 =
        export_profiles_to_config fs json_path config_path := by
  constructor
  · unfold export_profiles_to_config
    simp only [bind, hf, Option.some_bind, hd, hr]
    rfl
  · intro config_path2
    rfl

/-- C5: when every record of the loaded store has a `shortname` whose
value differs from the target, `change_profile` returns the file system
unchanged — no write at all — and reports not-found (`false`) instead of
raising. -/
theorem change_profile_unknown_shortname_no_write (fs : FS) (s : String)
    (patch : Dict) (j : Json) (ps : List Dict)
    (hf : load_profiles fs "profiles.json" = some j)
    (hd : decodeStore j = some ps)
    (hnm : ∀ p ∈ ps, ∃ v, dget p "shortname" = some v ∧ Json.eqStr v s = false) :
    change_profile s patch fs = some (fs, false) := by
  unfold change_profile
  simp only [bind, hf, Option.some_bind, hd]
  rw [change_loop_notfound s patch ps hnm]

/-- C6: when the loaded store splits as `pre ++ p :: post` with no match
in `pre` and `p` matching the shortname, `change_profile` saves the store
with exactly `p` replaced by the shallow merge of the patch over it —
every other record, including any later match in `post`, unchanged, order
and length preserved — and the merge gives each key the patch value when
the patch has the key and the old value otherwise. -/
theorem change_profile_first_match_patched (fs : FS) (s : String)
    (patch : Dict) (j : Json) (pre post : List Dict) (p : Dict)
    (hf : load_profiles fs "profiles.json" = some j)
    (hd : decodeStore j = some (pre ++ p :: post))
    (hpre : ∀ q ∈ pre, ∃ v, dget q "shortname" = some v ∧ Json.eqStr v s = false)
    (hp : dget p "shortname" = some (Json.str s)) :
    change_profile s patch fs =
      some (save_profiles (encodeStore (pre ++ dmerge p patch :: post)) fs
        "profiles.json", true) ∧
    (pre ++ dmerge p patch :: post).length = (pre ++ p :: post).length ∧
    ∀ k, dget (dmerge p patch) k = match dget patch k with
      | some v => some v
      | none => dget p k := by
  refine ⟨?_, by simp, fun k => dget_dmerge p patch k⟩
  unfold change_profile
  simp only [bind, hf, Option.some_bind, hd]
  rw [change_loop_found s patch pre post p hpre hp]

/-- C7: `remove_profile` saves exactly the subsequence of records whose
`shortname` differs from the target (all matching duplicates removed),
saving unconditionally even when nothing matched; and when no record
matches, the filtered store has the same length as the original. -/
theorem remove_profile_filters_and_saves (fs : FS) (s : String)
    (j : Json) (ps : List Dict)
    (hf : load_profiles fs "profiles.json" = some j)
    (hd : decodeStore j = some ps)
    (hk : ∀ p ∈ ps, (dget p "shortname").isSome) :
    remove_profile s fs =
      some (save_profiles (encodeStore (ps.filter
        (fun p => ! Json.eqStr ((dget p "shortname").getD Json.null) s))) fs
        "profiles.json") ∧
    ((∀ p ∈ ps, Json.eqStr ((dget p "shortname").getD Json.null) s = false) →
      (ps.filter
        (fun p => ! Json.eqStr ((dget p "shortname").getD Json.null) s)).length =
        ps.length) := by
  constructor
  · unfold remove_profile
    simp only [bind, hf, Option.some_bind, hd]
    rw [remove_filter_eq s ps hk]
    rfl
  · intro hall
    have : ps.filter
        (fun p => ! Json.eqStr ((dget p "shortname").getD Json.null) s) = ps :=
      List.filter_eq_self.mpr (fun p hp => by rw [hall p hp]; rfl)
    rw [this]

/-- C8: `add_profile` saves the loaded store with the new record appended
at the end, with no uniqueness check of any kind — in particular a record
whose shortname already occurs is appended all the same. -/
theorem add_profile_appends (fs : FS) (p : Dict) (j : Json) (ps : List Dict)
    (hf : load_profiles fs "profiles.json" = some j)
    (hd : decodeStore j = some ps) :
    add_profile p fs =
      some (save_profiles (encodeStore (ps ++ [p])) fs "profiles.json") := by
  unfold add_profile
  simp only [bind, hf, Option.some_bind, hd]
  rfl

/-- C9: saving the value loaded from a well-formed store file back to the
same path leaves the file holding the same parsed value: loading it again
yields the original JSON value, parsing it yields the original record
sequence, and serializing that sequence reproduces the original value. -/
theorem save_load_roundtrip (fs : FS) (f : String) (j : Json) (ps : List Dict)
    (hf : load_profiles fs f = some j)
    (hd : decodeStore j = some ps) :
    ∀ fs2, (load_profiles fs f).map (fun jv => save_profiles jv fs f) = some fs2 →
      load_profiles fs2 f = some j ∧
      (load_profiles fs2 f).bind decodeStore = some ps ∧
      encodeStore ps = j := by
  intro fs2 h2
  rw [hf] at h2
  simp only [Option.map_some', Option.some.injEq] at h2
  subst h2
  have h1 : load_profiles (save_profiles j fs f) f = some j := by
    unfold load_profiles save_profiles
    simp
  exact ⟨h1, by rw [h1]; simpa using hd, encode_of_decode j ps hd⟩

end JupyterhubProfilesTools

/-- C3 witness: the export theorem instantiated on the one-record store,
with a second config path showing the argument is irrelevant. -/
theorem export_ignores_config_witness :
    JupyterhubProfilesTools.export_profiles_to_config fsA "profiles.json"
      "jupyterhub_config.py" =
      some ([("A", "a", "jupyterhub.spawner.LocalProcessSpawner",
        [("cmd", ["/bin/bash", "-c",
          "source /a/.venv/bin/activate && cd /a && exec jupyterhub-singleuser "])])], fsA) ∧
    JupyterhubProfilesTools.export_profiles_to_config fsA "profiles.json"
      "some_other_path.py" =
      JupyterhubProfilesTools.export_profiles_to_config fsA "profiles.json"
        "jupyterhub_config.py" :=
  ⟨(JupyterhubProfilesTools.export_returns_rendered_and_ignores_config fsA
      "profiles.json" "jupyterhub_config.py" (encodeStore storeA) storeA _ rfl
      (decode_encode storeA) rfl).1,
   (JupyterhubProfilesTools.export_returns_rendered_and_ignores_config fsA
      "profiles.json" "jupyterhub_config.py" (encodeStore storeA) storeA _ rfl
      (decode_encode storeA) rfl).2 "some_other_path.py"⟩

/-- C5 witness: updating an unknown shortname on the one-record store
leaves the file system untouched and reports not-found. -/
theorem change_profile_unknown_shortname_witness :
    JupyterhubProfilesTools.change_profile "zzz" [] fsA = some (fsA, false) :=
  JupyterhubProfilesTools.change_profile_unknown_shortname_no_write fsA "zzz" []
    (encodeStore storeA) storeA rfl (decode_encode storeA)
    (by
      intro p hp
      simp only [storeA, List.mem_singleton] at hp
      subst hp
      exact ⟨Json.str "a", rfl, rfl⟩)

/-- C6 witness: patching the name of the matching record on the
one-record store saves the merged record, and the merge takes the patch
value at the patched key. -/
theorem change_profile_first_match_witness :
    JupyterhubProfilesTools.change_profile "a" [("name", Json.str "B")] fsA =
      some (JupyterhubProfilesTools.save_profiles
        (Json.arr [Json.obj [("name", Json.str "B"), ("shortname", Json.str "a"),
          ("dir", Json.str "/a")]]) fsA "profiles.json", true) ∧
    dget (dmerge [("name", Json.str "A"), ("shortname", Json.str "a"),
      ("dir", Json.str "/a")] [("name", Json.str "B")]) "name" = some (Json.str "B") :=
  ⟨(JupyterhubProfilesTools.change_profile_first_match_patched fsA "a"
      [("name", Json.str "B")] (encodeStore storeA) [] []
      [("name", Json.str "A"), ("shortname", Json.str "a"), ("dir", Json.str "/a")]
      rfl (decode_encode storeA)
      (by intro q hq; exact absurd hq (List.not_mem_nil q)) rfl).1,
   by
    rw [(JupyterhubProfilesTools.change_profile_first_match_patched fsA "a"
      [("name", Json.str "B")] (encodeStore storeA) [] []
      [("name", Json.str "A"), ("shortname", Json.str "a"), ("dir", Json.str "/a")]
      rfl (decode_encode storeA)
      (by intro q hq; exact absurd hq (List.not_mem_nil q)) rfl).2.2 "name"]
    rfl⟩

/-- C7 witness: removing the matching shortname from the one-record store
saves the empty array; removing an unknown shortname keeps the length. -/
theorem remove_profile_witness :
    JupyterhubProfilesTools.remove_profile "a" fsA =
      some (JupyterhubProfilesTools.save_profiles (Json.arr []) fsA "profiles.json") ∧
    (storeA.filter
      (fun p => ! Json.eqStr ((dget p "shortname").getD Json.null) "zzz")).length =
      storeA.length :=
  ⟨(JupyterhubProfilesTools.remove_profile_filters_and_saves fsA "a"
      (encodeStore storeA) storeA rfl (decode_encode storeA)
      (by intro p hp; simp only [storeA, List.mem_singleton] at hp; subst hp; rfl)).1,
   (JupyterhubProfilesTools.remove_profile_filters_and_saves fsA "zzz"
      (encodeStore storeA) storeA rfl (decode_encode storeA)
      (by intro p hp; simp only [storeA, List.mem_singleton] at hp; subst hp; rfl)).2
     (by intro p hp; simp only [storeA, List.mem_singleton] at hp; subst hp; rfl)⟩

/-- C8 witness: adding a record whose shortname already occurs in the
one-record store appends it anyway, yielding a store with two records of
the same shortname. -/
theorem add_profile_appends_witness :
    JupyterhubProfilesTools.add_profile exDup fsA =
      some (JupyterhubProfilesTools.save_profiles
        (encodeStore (storeA ++ [exDup])) fsA "profiles.json") :=
  JupyterhubProfilesTools.add_profile_appends fsA exDup (encodeStore storeA) storeA
    rfl (decode_encode storeA)

/-- C9 witness: the round-trip theorem instantiated on the one-record
store at the default path. -/
theorem save_load_roundtrip_witness :
    JupyterhubProfilesTools.load_profiles
      (JupyterhubProfilesTools.save_profiles (encodeStore storeA) fsA "profiles.json")
      "profiles.json" = some (encodeStore storeA) ∧
    (JupyterhubProfilesTools.load_profiles
      (JupyterhubProfilesTools.save_profiles (encodeStore storeA) fsA "profiles.json")
      "profiles.json").bind decodeStore = some storeA ∧
    encodeStore storeA = encodeStore storeA :=
  JupyterhubProfilesTools.save_load_roundtrip fsA "profiles.json" (encodeStore storeA)
    storeA rfl (decode_encode storeA)
    (JupyterhubProfilesTools.save_profiles (encodeStore storeA) fsA "profiles.json") rfl
